import Mathlib

/-!
Vulintus_Photodetector: a shallow embedding of the detector and its poll

The definitions below follow `src/Vulintus_Photodetector.h` and
`src/Vulintus_Photodetector.cpp`.

Modelling conventions.
* `uint8_t`, `uint16_t` and `uint32_t` values are natural numbers; every place where
  the C++ code converts or wraps carries an explicit `% 2^w`. Arguments of member
  functions and clock values are values of their C++ type (`WellTyped` states this
  for the fields of a detector, `Poll.WellTyped` for the clocks).
* `float` values (`_sensitivity`, `_lowpass_cutoff`, the intermediate `temp_float`)
  are rationals, so products and sums are exact.
* The hardware and the low-pass filter are external: the values returned by
  `analogRead`, `micros`, `millis` and `_lowpass_filter->input` during one call of
  `read` are the fields of a `Poll`.
* The static class member `bitmask` is a field of the state record, since every
  member function that touches it does so through one instance.
-/

namespace Photodetector

/-- Number of values of a `uint8_t`. -/
def U8 : Nat := 256

/-- Number of values of a `uint16_t`. -/
def U16 : Nat := 65536

/-- Number of values of a `uint32_t`; also the number of bit patterns of an `int`. -/
def U32 : Nat := 4294967296

/-- Fields of `class Vulintus_Photodetector` (header lines 51-62 and 86-96), together
with the static member `bitmask` (header line 52, cpp line 15). `history` holds
`history[0]` and `history[1]`; `_minmax_timer` likewise. -/
structure Vulintus_Photodetector where
  is_blocked : Bool
  bitmask : Nat
  index : Nat
  polarity : Bool
  reading_raw : Nat
  reading : Nat
  read_time : Nat
  auto_thresh : Bool
  min_range : Nat
  history : Nat × Nat
  reset_timeout : Nat
  _pin_detector : Nat
  _pin_emitter : Nat
  _pwm_val : Nat
  _sensitivity : ℚ
  _cur_thresh : Nat
  _minmax_timer : Nat × Nat
  _lowpass_cutoff : ℚ

/-- Every integer field holds a value of its C++ type. -/
def WellTyped (s : Vulintus_Photodetector) : Prop :=
  s.bitmask < U8 ∧ s.index < U8 ∧ s.reading_raw < U16 ∧ s.reading < U16 ∧
  s.read_time < U32 ∧ s.min_range < U16 ∧ s.history.1 < U16 ∧ s.history.2 < U16 ∧
  s.reset_timeout < U16 ∧ s._pin_detector < U8 ∧ s._pin_emitter < U8 ∧
  s._pwm_val < U8 ∧ s._cur_thresh < U16 ∧ s._minmax_timer.1 < U32 ∧
  s._minmax_timer.2 < U32

/-- What the environment returns during one call of `read`: `analogRead(_pin_detector)`
(cpp line 51), `micros()` (line 52), `_lowpass_filter->input(reading_raw, read_time)`
(line 55, consulted only when the filter is enabled) and `millis()` (line 63). -/
structure Poll where
  adc : Nat
  micros : Nat
  filtered : ℚ
  millis : Nat

/-- The clock values of a poll are 32-bit values. -/
def Poll.WellTyped (p : Poll) : Prop :=
  p.micros < U32 ∧ p.millis < U32

/-- Conversion `(uint16_t) temp_float` of cpp lines 57 and 83: the fractional part
is discarded (towards zero) and the integer is taken modulo 2^16. The C++ conversion
is only defined when the truncated value is representable; the reduction modulo 2^16
makes the model total. -/
def float_to_u16 (q : ℚ) : Nat :=
  ((if 0 ≤ q then ⌊q⌋ else ⌈q⌉) % (U16 : Int)).toNat

/-- Lines 54-61 of `read`: the stored `reading`, from the raw sample and the filter
output. -/
def filtered_reading (lowpass_cutoff : ℚ) (reading_raw : Nat) (filtered : ℚ) : Nat :=
  if 0 < lowpass_cutoff then float_to_u16 (max 0 filtered) else reading_raw

/-- Condition of cpp line 67. -/
def min_update_due (s : Vulintus_Photodetector) (reading clock_time : Nat) : Bool :=
  decide (reading ≤ s.history.1) ||
    (decide (0 < s.reset_timeout) && decide (s._minmax_timer.1 < clock_time))

/-- Condition of cpp line 74. -/
def max_update_due (s : Vulintus_Photodetector) (reading clock_time : Nat) : Bool :=
  decide (s.history.2 ≤ reading) ||
    (decide (0 < s.reset_timeout) && decide (s._minmax_timer.2 < clock_time))

/-- Value of `uint16_t ir_range = history[1] - history[0]` (cpp line 79). -/
def ir_range (history : Nat × Nat) : Nat :=
  (history.2 + U16 - history.1 % U16) % U16

/-- Value of `~(1 << index)` as a 32-bit pattern (cpp line 98). -/
def clear_pattern (index : Nat) : Nat :=
  U32 - 1 - (1 <<< index) % U32

/-- Lines 98-99 of `read`: the new value of the static `bitmask`. The operands are
promoted to `int` (modelled as 32-bit patterns) and the result is stored in a
`uint8_t`. -/
def bitmask_update (bitmask index : Nat) (is_blocked : Bool) : Nat :=
  (((bitmask &&& clear_pattern index) % U8) ||| ((is_blocked.toNat <<< index) % U32)) % U8

/-- Member function `read` (cpp lines 46-102): returns the change flag and the new
state. -/
def read (s : Vulintus_Photodetector) (p : Poll) : Bool × Vulintus_Photodetector :=
  let reading_raw := p.adc % U16
  let read_time := p.micros
  let reading := filtered_reading s._lowpass_cutoff reading_raw p.filtered
  let clock_time := p.millis
  let dmin := min_update_due s reading clock_time
  let dmax := max_update_due s reading clock_time
  let history : Nat × Nat :=
    (if dmin then reading else s.history.1, if dmax then reading else s.history.2)
  let minmax_timer : Nat × Nat :=
    (if dmin then (clock_time + s.reset_timeout) % U32 else s._minmax_timer.1,
     if dmax then (clock_time + s.reset_timeout) % U32 else s._minmax_timer.2)
  let range := ir_range history
  let cur_thresh :=
    if s.auto_thresh then float_to_u16 ((range : ℚ) * s._sensitivity + (history.1 : ℚ))
    else s._cur_thresh
  let cur_state :=
    if decide (s.min_range ≤ range) || !s.auto_thresh then
      (if !s.polarity then !decide (cur_thresh ≤ reading) else decide (cur_thresh ≤ reading))
    else false
  let change_flag := cur_state != s.is_blocked
  (change_flag,
   { s with
     reading_raw := reading_raw
     read_time := read_time
     reading := reading
     history := history
     _minmax_timer := minmax_timer
     _cur_thresh := cur_thresh
     is_blocked := cur_state
     bitmask := bitmask_update s.bitmask s.index cur_state })

/-- State after polling through a list of environment answers, oldest first. -/
def read_all (s : Vulintus_Photodetector) : List Poll → Vulintus_Photodetector
  | [] => s
  | p :: ps => read_all (read s p).2 ps

/-- Member function `set_thresh` (cpp lines 147-151). -/
def set_thresh (s : Vulintus_Photodetector) (thresh_adc : Nat) : Vulintus_Photodetector :=
  { s with _cur_thresh := thresh_adc, auto_thresh := false }

/-- Member function `get_thresh` (cpp lines 155-158). -/
def get_thresh (s : Vulintus_Photodetector) : Nat :=
  s._cur_thresh

/-- Member function `set_sensitivity` (cpp lines 162-166). -/
def set_sensitivity (s : Vulintus_Photodetector) (thresh_fl : ℚ) : Vulintus_Photodetector :=
  { s with _sensitivity := thresh_fl, auto_thresh := true }

/-- Member function `get_sensitivity` (cpp lines 170-173). -/
def get_sensitivity (s : Vulintus_Photodetector) : ℚ :=
  s._sensitivity

/-- Member function `reset` (cpp lines 192-198), as a state change; the function
has no return statement. -/
def reset (s : Vulintus_Photodetector) : Vulintus_Photodetector :=
  { s with history := (65535, 0), _cur_thresh := 0, auto_thresh := true }

/-- Value `_BOOTUP_RESET_DELAY` (header line 93). -/
def _BOOTUP_RESET_DELAY : Nat := 1000

/-- Output calls made on the hardware. -/
inductive PinCall where
  | pinMode (pin : Nat) (output : Bool)
  | digitalWrite (pin : Nat) (high : Bool)
  | analogWrite (pin : Nat) (val : Nat)
  deriving DecidableEq, Repr

/-- Member function `begin` (cpp lines 36-42); `millis` is the value returned by
the clock. -/
def begin (s : Vulintus_Photodetector) (millis : Nat) : Vulintus_Photodetector × List PinCall :=
  ({ s with
     _minmax_timer := ((millis + _BOOTUP_RESET_DELAY) % U32, (millis + _BOOTUP_RESET_DELAY) % U32) },
   [PinCall.pinMode s._pin_detector false])

/-- Member function `set_emitter_pwm` (cpp lines 115-132). -/
def set_emitter_pwm (s : Vulintus_Photodetector) (pwm_val : Nat) :
    Vulintus_Photodetector × List PinCall :=
  let s1 := { s with _pwm_val := pwm_val }
  (s1,
   if s1._pin_emitter ≠ 255 then
     (if s1._pwm_val = 255 then [PinCall.digitalWrite s1._pin_emitter true]
      else if s1._pwm_val = 0 then [PinCall.digitalWrite s1._pin_emitter false]
      else [PinCall.analogWrite s1._pin_emitter s1._pwm_val])
   else [])

/-- Member function `set_emitter_pin` (cpp lines 106-111). -/
def set_emitter_pin (s : Vulintus_Photodetector) (pin_emitter : Nat) :
    Vulintus_Photodetector × List PinCall :=
  let s1 := { s with _pin_emitter := pin_emitter }
  let r := set_emitter_pwm s1 s1._pwm_val
  (r.1, PinCall.pinMode s1._pin_emitter true :: r.2)

/-- Member function `get_emitter_pwm` (cpp lines 135-143). -/
def get_emitter_pwm (s : Vulintus_Photodetector) : Nat :=
  if s._pin_emitter ≠ 255 then s._pwm_val else 0

/-- State left by the constructor (cpp lines 21-25) and the default member
initialisers of the header. The members without an initialiser (`is_blocked`,
`reading`, `read_time`, `_cur_thresh`, `_minmax_timer`) and the current value of
the static `bitmask` are taken from `junk`. -/
def construct (pin_detector beam_index : Nat) (blocked_val : Bool)
    (junk : Vulintus_Photodetector) : Vulintus_Photodetector :=
  { junk with
    index := beam_index
    polarity := blocked_val
    auto_thresh := true
    min_range := 100
    history := (65535, 0)
    reset_timeout := 30000
    _pin_detector := pin_detector
    _pin_emitter := 255
    _pwm_val := 255
    _sensitivity := 1 / 2
    _lowpass_cutoff := 0 }

/-- Detector used in the examples: the constructor defaults with `beam_index = 0`,
timers as armed by `begin` at clock 0, and `is_blocked` currently true. -/
def blocked_detector : Vulintus_Photodetector :=
  { is_blocked := true, bitmask := 1, index := 0, polarity := true, reading_raw := 0,
    reading := 0, read_time := 0, auto_thresh := true, min_range := 100,
    history := (65535, 0), reset_timeout := 30000, _pin_detector := 14,
    _pin_emitter := 255, _pwm_val := 255, _sensitivity := 1 / 2, _cur_thresh := 0,
    _minmax_timer := (1000, 1000), _lowpass_cutoff := 0 }

/-- Same detector with `is_blocked` currently false. -/
def fresh_detector : Vulintus_Photodetector :=
  { blocked_detector with is_blocked := false, bitmask := 0 }

/-- Poll returning the raw sample `adc` at millisecond clock `millis`. -/
def sample (adc millis : Nat) : Poll :=
  { adc := adc, micros := 1000 * millis, filtered := 0, millis := millis }

/-- State after a list of `set_emitter_pwm` calls, oldest first; the output calls
are dropped. -/
def set_emitter_pwm_all (s : Vulintus_Photodetector) : List Nat → Vulintus_Photodetector
  | [] => s
  | v :: vs => set_emitter_pwm_all (set_emitter_pwm s v).1 vs

/-- Example detector with the timed reset disabled. -/
def untimed_detector : Vulintus_Photodetector :=
  { fresh_detector with reset_timeout := 0 }

/-- Example detector whose beam index lies outside the 8-bit registry. -/
def high_index_detector : Vulintus_Photodetector :=
  { blocked_detector with index := 9, bitmask := 5 }

/-- Example detector with emitter pin 6 configured and PWM value 200 stored. -/
def emitter_detector : Vulintus_Photodetector :=
  { blocked_detector with _pin_emitter := 6, _pwm_val := 200 }

/-- Poll with sample 100, ten milliseconds before the 32-bit millisecond clock
wraps. -/
def poll_before_wrap : Poll :=
  { adc := 100, micros := 0, filtered := 0, millis := 4294967286 }

/-- Poll with sample 200, one millisecond after `poll_before_wrap`. -/
def poll_next_ms : Poll :=
  { adc := 200, micros := 1000, filtered := 0, millis := 4294967287 }

/-! Field-by-field description of one poll. -/

theorem read_flag (s : Vulintus_Photodetector) (p : Poll) :
    (read s p).1 = ((read s p).2.is_blocked != s.is_blocked) := rfl

theorem read_reading (s : Vulintus_Photodetector) (p : Poll) :
    (read s p).2.reading = filtered_reading s._lowpass_cutoff (p.adc % U16) p.filtered := rfl

theorem read_history (s : Vulintus_Photodetector) (p : Poll) :
    (read s p).2.history =
      (if min_update_due s (read s p).2.reading p.millis then (read s p).2.reading
        else s.history.1,
       if max_update_due s (read s p).2.reading p.millis then (read s p).2.reading
        else s.history.2) := rfl

theorem read_timer (s : Vulintus_Photodetector) (p : Poll) :
    (read s p).2._minmax_timer =
      (if min_update_due s (read s p).2.reading p.millis then (p.millis + s.reset_timeout) % U32
        else s._minmax_timer.1,
       if max_update_due s (read s p).2.reading p.millis then (p.millis + s.reset_timeout) % U32
        else s._minmax_timer.2) := rfl

theorem read_thresh (s : Vulintus_Photodetector) (p : Poll) :
    (read s p).2._cur_thresh =
      if s.auto_thresh then
        float_to_u16 ((ir_range (read s p).2.history : ℚ) * s._sensitivity
          + ((read s p).2.history.1 : ℚ))
      else s._cur_thresh := rfl

theorem read_is_blocked (s : Vulintus_Photodetector) (p : Poll) :
    (read s p).2.is_blocked =
      if decide (s.min_range ≤ ir_range (read s p).2.history) || !s.auto_thresh then
        (if !s.polarity then !decide ((read s p).2._cur_thresh ≤ (read s p).2.reading)
         else decide ((read s p).2._cur_thresh ≤ (read s p).2.reading))
      else false := rfl

theorem read_bitmask (s : Vulintus_Photodetector) (p : Poll) :
    (read s p).2.bitmask = bitmask_update s.bitmask s.index (read s p).2.is_blocked := rfl

theorem read_config (s : Vulintus_Photodetector) (p : Poll) :
    (read s p).2.auto_thresh = s.auto_thresh ∧ (read s p).2.polarity = s.polarity ∧
    (read s p).2.min_range = s.min_range ∧ (read s p).2.reset_timeout = s.reset_timeout ∧
    (read s p).2.index = s.index ∧ (read s p).2._sensitivity = s._sensitivity ∧
    (read s p).2._lowpass_cutoff = s._lowpass_cutoff :=
  ⟨rfl, rfl, rfl, rfl, rfl, rfl, rfl⟩

/-- After one poll the stored reading lies between the two history bounds. -/
theorem read_bracket (s : Vulintus_Photodetector) (p : Poll) :
    (read s p).2.history.1 ≤ (read s p).2.reading ∧
      (read s p).2.reading ≤ (read s p).2.history.2 := by
  rw [read_history]
  constructor
  · by_cases h : min_update_due s (read s p).2.reading p.millis = true
    · simp [h]
    · have h1 : ¬ ((read s p).2.reading ≤ s.history.1) := by
        intro hle
        exact h (by simp [min_update_due, hle])
      simp only [h]
      exact le_of_lt (not_le.mp h1)
  · by_cases h : max_update_due s (read s p).2.reading p.millis = true
    · simp [h]
    · have h1 : ¬ (s.history.2 ≤ (read s p).2.reading) := by
        intro hle
        exact h (by simp [max_update_due, hle])
      simp only [h]
      exact le_of_lt (not_le.mp h1)

/-! Bounds used by the claims. -/

/-- The conversion to `uint16_t` yields a 16-bit value. -/
theorem float_to_u16_lt (q : ℚ) : float_to_u16 q < U16 := by
  unfold float_to_u16
  have h : (if 0 ≤ q then ⌊q⌋ else ⌈q⌉) % (U16 : Int) < (U16 : Int) :=
    Int.emod_lt_of_pos _ (by simp [U16])
  have h0 : 0 ≤ (if 0 ≤ q then ⌊q⌋ else ⌈q⌉) % (U16 : Int) :=
    Int.emod_nonneg _ (by simp [U16])
  omega

/-- A value between two naturals below 2^16 converts to a natural between them. -/
theorem float_to_u16_between (q : ℚ) (a b : Nat) (ha : (a : ℚ) ≤ q) (hb : q ≤ (b : ℚ))
    (hlt : b < U16) : a ≤ float_to_u16 q ∧ float_to_u16 q ≤ b := by
  have hq : (0 : ℚ) ≤ q := le_trans (Nat.cast_nonneg a) ha
  have h1 : (a : Int) ≤ ⌊q⌋ := Int.le_floor.mpr (by exact_mod_cast ha)
  have h2 : ⌊q⌋ ≤ (b : Int) := by
    have : ((⌊q⌋ : Int) : ℚ) ≤ ((b : Int) : ℚ) := le_trans (Int.floor_le q) (by exact_mod_cast hb)
    exact_mod_cast this
  unfold float_to_u16
  rw [if_pos hq]
  unfold U16 at *
  omega

theorem read_reading_lt (s : Vulintus_Photodetector) (p : Poll) :
    (read s p).2.reading < U16 := by
  rw [read_reading]
  unfold filtered_reading
  split
  · exact float_to_u16_lt _
  · exact Nat.mod_lt _ (by decide)

theorem read_history_snd_lt (s : Vulintus_Photodetector) (p : Poll)
    (h : s.history.2 < U16) : (read s p).2.history.2 < U16 := by
  rw [read_history]
  dsimp only
  split
  · exact read_reading_lt s p
  · exact h

theorem ir_range_eq_sub (h : Nat × Nat) (hle : h.1 ≤ h.2) (hlt : h.2 < U16) :
    ir_range h = h.2 - h.1 := by
  unfold ir_range
  unfold U16 at *
  omega

/-- Polling keeps every field within its C++ type, for 32-bit clock values. -/
theorem read_wellTyped (s : Vulintus_Photodetector) (p : Poll)
    (hs : WellTyped s) (hp : p.WellTyped) : WellTyped (read s p).2 := by
  obtain ⟨_, h2, _, _, _, h6, h7, h8, h9, h10, h11, h12, h13, h14, h15⟩ := hs
  have hr := read_reading_lt s p
  have hmod : ∀ n : Nat, n % U32 < U32 := fun n => Nat.mod_lt _ (by decide)
  refine ⟨?_, h2, ?_, hr, hp.1, h6, ?_, read_history_snd_lt s p h8, h9, h10, h11, h12,
    ?_, ?_, ?_⟩
  · rw [read_bitmask]
    exact Nat.mod_lt _ (by decide)
  · exact Nat.mod_lt _ (by decide)
  · rw [read_history]
    dsimp only
    split
    · exact hr
    · exact h7
  · rw [read_thresh]
    split
    · exact float_to_u16_lt _
    · exact h13
  · rw [read_timer]
    dsimp only
    split
    · exact hmod _
    · exact h14
  · rw [read_timer]
    dsimp only
    split
    · exact hmod _
    · exact h15

/-- A fixed threshold and the disabled auto-thresholding survive any run of polls. -/
theorem read_all_fixed (v : Nat) (ps : List Poll) :
    ∀ s : Vulintus_Photodetector, s.auto_thresh = false → s._cur_thresh = v →
      (read_all s ps).auto_thresh = false ∧ (read_all s ps)._cur_thresh = v := by
  induction ps with
  | nil => intro s h1 h2; exact ⟨h1, h2⟩
  | cons p ps ih =>
    intro s h1 h2
    apply ih (read s p).2
    · exact h1
    · rw [read_thresh, h1]
      simpa using h2

/-- Bit `j` of the updated registry, for a beam index below 8. -/
theorem bitmask_update_testBit (m i : Nat) (b : Bool) (j : Nat) (hi : i < 8) (hm : m < U8) :
    (bitmask_update m i b).testBit j = if j = i then b else m.testBit j := by
  have hU8 : U8 = 2 ^ 8 := by decide
  have hU32 : U32 = 2 ^ 32 := by decide
  have hpow : 2 ^ i < 2 ^ 32 := Nat.pow_lt_pow_right (by decide) (by omega)
  have hcp : clear_pattern i = 2 ^ 32 - (2 ^ i + 1) := by
    unfold clear_pattern
    rw [hU32, Nat.one_shiftLeft, Nat.mod_eq_of_lt hpow]
    omega
  have hset : (b.toNat <<< i) % U32 = b.toNat <<< i := by
    rw [hU32]
    apply Nat.mod_eq_of_lt
    cases b
    · simp
    · simpa [Nat.one_shiftLeft] using hpow
  have hmj : 8 ≤ j → m.testBit j = false := by
    intro h8
    apply Nat.testBit_lt_two_pow
    calc m < 2 ^ 8 := by rw [← hU8]; exact hm
      _ ≤ 2 ^ j := Nat.pow_le_pow_right (by decide) h8
  unfold bitmask_update
  rw [hset, hcp, hU8]
  simp only [Nat.testBit_mod_two_pow, Nat.testBit_lor, Nat.testBit_land,
    Nat.testBit_two_pow_sub_succ hpow, Nat.testBit_two_pow]
  by_cases hji : j = i
  · subst hji
    cases b <;> simp [Nat.one_shiftLeft, Nat.testBit_two_pow, hi]
  · have hij : ¬ i = j := fun h => hji h.symm
    by_cases h8 : j < 8
    · have h32 : j < 32 := by omega
      cases b <;> simp [Nat.one_shiftLeft, Nat.testBit_two_pow, hji, hij, h8, h32]
    · have := hmj (by omega)
      simp [h8, hji, this]

/-! The claims. -/

/-- C1 (as amended): when auto-thresholding is on and the range after the history
update is below `min_range`, the poll sets `is_blocked` to false for either polarity;
so `is_blocked` keeps its previous value exactly when the detector was unblocked. -/
theorem C1_gate_closed_reports_unblocked (s : Vulintus_Photodetector) (p : Poll)
    (hauto : s.auto_thresh = true)
    (hrange : ir_range (read s p).2.history < s.min_range) :
    (read s p).2.is_blocked = false ∧
      ((read s p).2.is_blocked = s.is_blocked ↔ s.is_blocked = false) := by
  have h : (read s p).2.is_blocked = false := by
    rw [read_is_blocked]
    simp [hauto, not_le.mpr hrange]
  rw [h]
  exact ⟨rfl, eq_comm⟩

/-- C1 witness: the blocked example detector polled with sample 100. -/
theorem C1_gate_closed_reports_unblocked_witness :
    (read blocked_detector (sample 100 10)).2.is_blocked = false ∧
      ((read blocked_detector (sample 100 10)).2.is_blocked = blocked_detector.is_blocked ↔
        blocked_detector.is_blocked = false) :=
  C1_gate_closed_reports_unblocked blocked_detector (sample 100 10) rfl (by decide)

/-- C1 counterexample: a blocked detector with auto-thresholding on, polled with
sample 100, ends with range 0 < 100 = `min_range` and `is_blocked` changed from true
to false. -/
theorem C1_counterexample :
    blocked_detector.auto_thresh = true ∧
    ir_range (read blocked_detector (sample 100 10)).2.history < blocked_detector.min_range ∧
    blocked_detector.is_blocked = true ∧
    (read blocked_detector (sample 100 10)).2.is_blocked ≠ blocked_detector.is_blocked := by
  decide

/-- C2: from every starting state, after every sequence of earlier polls and every
further poll, `history.min <= reading <= history.max` for the reading stored by that
poll. -/
theorem C2_history_brackets_reading (s : Vulintus_Photodetector) (earlier : List Poll)
    (p : Poll) :
    (read (read_all s earlier) p).2.history.1 ≤ (read (read_all s earlier) p).2.reading ∧
      (read (read_all s earlier) p).2.reading ≤ (read (read_all s earlier) p).2.history.2 :=
  read_bracket (read_all s earlier) p

/-- C3: when the range after the history update is at least `min_range`, or
auto-thresholding is off, `is_blocked` after the poll is `reading >= threshold` for
polarity true and its negation for polarity false, with the reading, threshold and
history of the state after the poll. -/
theorem C3_gate_open_classification (s : Vulintus_Photodetector) (p : Poll)
    (hgate : (read s p).2.min_range ≤ ir_range (read s p).2.history ∨
      (read s p).2.auto_thresh = false) :
    (read s p).2.is_blocked =
      if (read s p).2.polarity = true then
        decide (get_thresh (read s p).2 ≤ (read s p).2.reading)
      else !decide (get_thresh (read s p).2 ≤ (read s p).2.reading) := by
  have hopen : (decide (s.min_range ≤ ir_range (read s p).2.history) || !s.auto_thresh)
      = true := by
    rcases hgate with h | h
    · have h0 : s.min_range ≤ ir_range (read s p).2.history := h
      simp [h0]
    · have h0 : s.auto_thresh = false := h
      simp [h0]
  have hpol : (read s p).2.polarity = s.polarity := rfl
  rw [hpol, read_is_blocked, hopen]
  cases hp : s.polarity <;> simp [get_thresh]

/-- C3 witness: the second poll of the 100, 300 sequence has range 200 >= 100. -/
theorem C3_gate_open_classification_witness :
    (read (read fresh_detector (sample 100 10)).2 (sample 300 20)).2.is_blocked =
      if (read (read fresh_detector (sample 100 10)).2 (sample 300 20)).2.polarity = true then
        decide (get_thresh (read (read fresh_detector (sample 100 10)).2 (sample 300 20)).2 ≤
          (read (read fresh_detector (sample 100 10)).2 (sample 300 20)).2.reading)
      else !decide (get_thresh (read (read fresh_detector (sample 100 10)).2 (sample 300 20)).2 ≤
          (read (read fresh_detector (sample 100 10)).2 (sample 300 20)).2.reading) :=
  C3_gate_open_classification (read fresh_detector (sample 100 10)).2 (sample 300 20)
    (Or.inl (by decide))

/-- C4: for a well-typed state with auto-thresholding on and sensitivity strictly
between 0 and 1, after a poll the threshold returned by `get_thresh` lies between
`history.min` and `history.max`. -/
theorem C4_auto_thresh_within_history (s : Vulintus_Photodetector) (p : Poll)
    (hs : WellTyped s) (hauto : s.auto_thresh = true)
    (hpos : 0 < s._sensitivity) (hlt : s._sensitivity < 1) :
    (read s p).2.history.1 ≤ get_thresh (read s p).2 ∧
      get_thresh (read s p).2 ≤ (read s p).2.history.2 := by
  have hb := read_bracket s p
  have hle : (read s p).2.history.1 ≤ (read s p).2.history.2 := le_trans hb.1 hb.2
  have h2 : (read s p).2.history.2 < U16 := read_history_snd_lt s p hs.2.2.2.2.2.2.2.1
  have hr : ((ir_range (read s p).2.history : Nat) : ℚ) =
      ((read s p).2.history.2 : ℚ) - ((read s p).2.history.1 : ℚ) := by
    rw [ir_range_eq_sub _ hle h2, Nat.cast_sub hle]
  have hq : ((read s p).2.history.1 : ℚ) ≤ ((read s p).2.history.2 : ℚ) := by
    exact_mod_cast hle
  unfold get_thresh
  rw [read_thresh, if_pos hauto, hr]
  apply float_to_u16_between _ _ _ _ _ h2
  · nlinarith
  · nlinarith

/-- C4 witness: the blocked example detector (sensitivity 1/2) polled with sample 100. -/
theorem C4_auto_thresh_within_history_witness :
    (read blocked_detector (sample 100 10)).2.history.1 ≤
        get_thresh (read blocked_detector (sample 100 10)).2 ∧
      get_thresh (read blocked_detector (sample 100 10)).2 ≤
        (read blocked_detector (sample 100 10)).2.history.2 :=
  C4_auto_thresh_within_history blocked_detector (sample 100 10)
    (by unfold WellTyped; decide) rfl (by norm_num [blocked_detector])
    (by norm_num [blocked_detector])

/-- C5 (as amended): with `min_range = 100`, sensitivity 1/2, polarity true,
auto-thresholding on, the filter disabled, history (65535, 0), `is_blocked` false and
no timed reset of the minimum at the second poll, the poll with sample 100 leaves
history (100, 100), threshold 100, `is_blocked` false and returns false; the poll with
sample 300 then leaves history (100, 300), threshold 200, `is_blocked` true and
returns true. -/
theorem C5_two_poll_scenario (s : Vulintus_Photodetector) (p1 p2 : Poll)
    (hrange : s.min_range = 100) (hsens : s._sensitivity = 1 / 2)
    (hpol : s.polarity = true) (hauto : s.auto_thresh = true)
    (hfilt : s._lowpass_cutoff = 0) (hhist : s.history = (65535, 0))
    (hblk : s.is_blocked = false) (h1 : p1.adc = 100) (h2 : p2.adc = 300)
    (hquiet : ¬ (0 < s.reset_timeout ∧ (p1.millis + s.reset_timeout) % U32 < p2.millis)) :
    (read s p1).2.history = (100, 100) ∧ get_thresh (read s p1).2 = 100 ∧
    (read s p1).2.is_blocked = false ∧ (read s p1).1 = false ∧
    (read (read s p1).2 p2).2.history = (100, 300) ∧
    get_thresh (read (read s p1).2 p2).2 = 200 ∧
    (read (read s p1).2 p2).2.is_blocked = true ∧ (read (read s p1).2 p2).1 = true := by
  have hf1 : float_to_u16 ((0 : Nat) * (1 / 2 : ℚ) + ((100 : Nat) : ℚ)) = 100 := by
    norm_num [float_to_u16, U16]
    rfl
  have hf2 : float_to_u16 ((200 : Nat) * (1 / 2 : ℚ) + ((100 : Nat) : ℚ)) = 200 := by
    norm_num [float_to_u16, U16]
    rfl
  have hi1 : ir_range (100, 100) = 0 := by decide
  have hi2 : ir_range (100, 300) = 200 := by decide
  -- first poll
  have r1 : (read s p1).2.reading = 100 := by
    rw [read_reading, hfilt, h1]
    simp [filtered_reading, U16]
  have hist1 : (read s p1).2.history = (100, 100) := by
    rw [read_history, r1]
    simp [min_update_due, max_update_due, hhist]
  have th1 : (read s p1).2._cur_thresh = 100 := by
    rw [read_thresh, hist1, hauto, hsens, hi1]
    exact hf1
  have b1 : (read s p1).2.is_blocked = false := by
    rw [read_is_blocked, hist1, hi1, hrange, hauto]
    rfl
  have f1 : (read s p1).1 = false := by
    rw [read_flag, b1, hblk]
    rfl
  -- second poll
  obtain ⟨ca, cp, cm, ct, _, cs, cf⟩ := read_config s p1
  have tm1 : (read s p1).2._minmax_timer.1 = (p1.millis + s.reset_timeout) % U32 := by
    rw [read_timer, r1]
    simp [min_update_due, hhist]
  have r2 : (read (read s p1).2 p2).2.reading = 300 := by
    rw [read_reading, cf, hfilt, h2]
    simp [filtered_reading, U16]
  have hist2 : (read (read s p1).2 p2).2.history = (100, 300) := by
    have hq : (decide (0 < s.reset_timeout) &&
        decide ((p1.millis + s.reset_timeout) % U32 < p2.millis)) = false := by
      simpa using hquiet
    rw [read_history, r2]
    simp [min_update_due, max_update_due, hist1, ct, tm1, hq]
  have th2 : (read (read s p1).2 p2).2._cur_thresh = 200 := by
    rw [read_thresh, hist2, ca, hauto, cs, hsens, hi2]
    exact hf2
  have b2 : (read (read s p1).2 p2).2.is_blocked = true := by
    rw [read_is_blocked, hist2, hi2, th2, r2, cm, hrange, ca, hauto, cp, hpol]
    rfl
  have f2 : (read (read s p1).2 p2).1 = true := by
    rw [read_flag, b2, b1]
    rfl
  exact ⟨hist1, th1, b1, f1, hist2, th2, b2, f2⟩

/-- C5 witness: the fresh example detector polled at clock values 10 and 20. -/
theorem C5_two_poll_scenario_witness :
    (read fresh_detector (sample 100 10)).2.history = (100, 100) ∧
    get_thresh (read fresh_detector (sample 100 10)).2 = 100 ∧
    (read fresh_detector (sample 100 10)).2.is_blocked = false ∧
    (read fresh_detector (sample 100 10)).1 = false ∧
    (read (read fresh_detector (sample 100 10)).2 (sample 300 20)).2.history = (100, 300) ∧
    get_thresh (read (read fresh_detector (sample 100 10)).2 (sample 300 20)).2 = 200 ∧
    (read (read fresh_detector (sample 100 10)).2 (sample 300 20)).2.is_blocked = true ∧
    (read (read fresh_detector (sample 100 10)).2 (sample 300 20)).1 = true :=
  C5_two_poll_scenario fresh_detector (sample 100 10) (sample 300 20) rfl rfl rfl rfl rfl rfl
    rfl rfl rfl (by decide)

/-- C5 counterexample: on the fresh example detector the outcome stated by the claim
(blocked and changed after the first poll, unchanged after the second) does not
occur. -/
theorem C5_counterexample :
    ¬ ((read fresh_detector (sample 100 10)).2.history = (100, 100) ∧
      get_thresh (read fresh_detector (sample 100 10)).2 = 100 ∧
      (read fresh_detector (sample 100 10)).2.is_blocked = true ∧
      (read fresh_detector (sample 100 10)).1 = true ∧
      (read (read fresh_detector (sample 100 10)).2 (sample 300 20)).2.history = (100, 300) ∧
      get_thresh (read (read fresh_detector (sample 100 10)).2 (sample 300 20)).2 = 200 ∧
      (read (read fresh_detector (sample 100 10)).2 (sample 300 20)).2.is_blocked = true ∧
      (read (read fresh_detector (sample 100 10)).2 (sample 300 20)).1 = false) := by
  intro h
  have hb : (read fresh_detector (sample 100 10)).2.is_blocked = false := by decide
  rw [hb] at h
  exact Bool.noConfusion h.2.2.1

/-- C6: `read` returns true exactly when `is_blocked` after the poll differs from
`is_blocked` before it. -/
theorem C6_change_flag (s : Vulintus_Photodetector) (p : Poll) :
    (read s p).1 = true ↔ (read s p).2.is_blocked ≠ s.is_blocked := by
  rw [read_flag]
  exact bne_iff_ne

/-- C7: after `set_thresh v` auto-thresholding is off; after any list of polls
`get_thresh` still returns `v` and auto-thresholding is still off; and with polarity
true, `set_thresh 150` followed by a poll that stores reading 140 gives `is_blocked`
false, with auto-thresholding off afterwards. -/
theorem C7_fixed_threshold (s : Vulintus_Photodetector) (v : Nat) (ps : List Poll) :
    (set_thresh s v).auto_thresh = false ∧
    get_thresh (read_all (set_thresh s v) ps) = v ∧
    (read_all (set_thresh s v) ps).auto_thresh = false ∧
    (∀ p : Poll, s.polarity = true → (read (set_thresh s 150) p).2.reading = 140 →
      (read (set_thresh s 150) p).2.is_blocked = false ∧
      (read (set_thresh s 150) p).2.auto_thresh = false) := by
  have h := read_all_fixed v ps (set_thresh s v) rfl rfl
  refine ⟨rfl, h.2, h.1, ?_⟩
  intro p hpol hr
  refine ⟨?_, rfl⟩
  have ht : (read (set_thresh s 150) p).2._cur_thresh = 150 := rfl
  have hp : (set_thresh s 150).polarity = true := hpol
  have ha : (set_thresh s 150).auto_thresh = false := rfl
  rw [read_is_blocked, ht, hr, hp, ha]
  simp

/-- C7 witness: threshold 150 pinned on the example detector, polled with 140 and 900. -/
theorem C7_fixed_threshold_witness :
    get_thresh (read_all (set_thresh blocked_detector 150) [sample 140 10, sample 900 20]) = 150 ∧
    (read (set_thresh blocked_detector 150) (sample 140 10)).2.is_blocked = false :=
  ⟨(C7_fixed_threshold blocked_detector 150 [sample 140 10, sample 900 20]).2.1,
   ((C7_fixed_threshold blocked_detector 150 []).2.2.2 (sample 140 10) rfl (by decide)).1⟩

/-- C8: for a beam index below 8 and an 8-bit registry value, after a poll bit
`index` of `bitmask` equals `is_blocked` and every other bit is as before the poll. -/
theorem C8_registry_bit (s : Vulintus_Photodetector) (p : Poll)
    (hi : s.index < 8) (hm : s.bitmask < U8) :
    (read s p).2.bitmask.testBit s.index = (read s p).2.is_blocked ∧
      ∀ j : Nat, j ≠ s.index → (read s p).2.bitmask.testBit j = s.bitmask.testBit j := by
  constructor
  · rw [read_bitmask, bitmask_update_testBit _ _ _ _ hi hm, if_pos rfl]
  · intro j hj
    rw [read_bitmask, bitmask_update_testBit _ _ _ _ hi hm, if_neg hj]

/-- C8 witness: the blocked example detector (index 0, registry 1). -/
theorem C8_registry_bit_witness :
    (read blocked_detector (sample 100 10)).2.bitmask.testBit blocked_detector.index =
        (read blocked_detector (sample 100 10)).2.is_blocked ∧
      ∀ j : Nat, j ≠ blocked_detector.index →
        (read blocked_detector (sample 100 10)).2.bitmask.testBit j =
          blocked_detector.bitmask.testBit j :=
  C8_registry_bit blocked_detector (sample 100 10) (by decide) (by decide)

/-- C9: with the filter disabled, `reset` followed by one poll with a 16-bit raw
sample `r` leaves `history.min = history.max = r`, whatever the timeout, deadlines and
clock value are. -/
theorem C9_first_poll_after_reset (s : Vulintus_Photodetector) (p : Poll)
    (hfilt : s._lowpass_cutoff ≤ 0) (hr : p.adc < U16) :
    (read (reset s) p).2.history = (p.adc, p.adc) := by
  have hrd : (read (reset s) p).2.reading = p.adc := by
    rw [read_reading]
    have : (reset s)._lowpass_cutoff = s._lowpass_cutoff := rfl
    rw [this]
    unfold filtered_reading
    rw [if_neg (not_lt.mpr hfilt), Nat.mod_eq_of_lt hr]
  have hmin : min_update_due (reset s) p.adc p.millis = true := by
    have h0 : (reset s).history.1 = 65535 := rfl
    have : p.adc ≤ 65535 := by unfold U16 at hr; omega
    simp [min_update_due, h0, this]
  have hmax : max_update_due (reset s) p.adc p.millis = true := by
    have h0 : (reset s).history.2 = 0 := rfl
    simp [max_update_due, h0]
  rw [read_history, hrd, hmin, hmax]
  simp

/-- C9 witness: the example detector reset and polled with sample 777. -/
theorem C9_first_poll_after_reset_witness :
    (read (reset blocked_detector) (sample 777 10)).2.history = (777, 777) :=
  C9_first_poll_after_reset blocked_detector (sample 777 10) (le_refl 0) (by decide)

/-- C10: `reset` leaves history (65535, 0), threshold 0 and auto-thresholding on,
and does not change `is_blocked`, the sensitivity, `min_range`, `reset_timeout`,
`polarity`, `index` or the shared `bitmask`. -/
theorem C10_reset_frame (s : Vulintus_Photodetector) :
    (reset s).history = (65535, 0) ∧ get_thresh (reset s) = 0 ∧
    (reset s).auto_thresh = true ∧
    (reset s).is_blocked = s.is_blocked ∧ get_sensitivity (reset s) = get_sensitivity s ∧
    (reset s).min_range = s.min_range ∧ (reset s).reset_timeout = s.reset_timeout ∧
    (reset s).polarity = s.polarity ∧ (reset s).index = s.index ∧
    (reset s).bitmask = s.bitmask :=
  ⟨rfl, rfl, rfl, rfl, rfl, rfl, rfl, rfl, rfl, rfl⟩

/-! Further facts used by the later claims. -/

/-- The configured timeout is the same after any run of polls. -/
theorem read_all_reset_timeout (ps : List Poll) :
    ∀ s : Vulintus_Photodetector, (read_all s ps).reset_timeout = s.reset_timeout := by
  induction ps with
  | nil => intro s; rfl
  | cons p ps ih =>
    intro s
    exact ih (read s p).2

/-- Away from the wrap of the millisecond clock, a poll within `reset_timeout` of the
poll that last updated the min side keeps `history.min` and the min-side deadline when
its reading is above `history.min`; likewise for the max side. -/
theorem timed_reset_not_early_without_wrap (s : Vulintus_Photodetector) (p1 p2 : Poll)
    (hnowrap : p1.millis + s.reset_timeout < U32)
    (hle : p1.millis ≤ p2.millis) (hwithin : p2.millis - p1.millis ≤ s.reset_timeout) :
    (min_update_due s (read s p1).2.reading p1.millis = true →
      (read s p1).2.history.1 < (read (read s p1).2 p2).2.reading →
      (read (read s p1).2 p2).2.history.1 = (read s p1).2.history.1 ∧
      (read (read s p1).2 p2).2._minmax_timer.1 = (read s p1).2._minmax_timer.1) ∧
    (max_update_due s (read s p1).2.reading p1.millis = true →
      (read (read s p1).2 p2).2.reading < (read s p1).2.history.2 →
      (read (read s p1).2 p2).2.history.2 = (read s p1).2.history.2 ∧
      (read (read s p1).2 p2).2._minmax_timer.2 = (read s p1).2._minmax_timer.2) := by
  have hrt : (read s p1).2.reset_timeout = s.reset_timeout := rfl
  constructor
  · intro hdue hgt
    have htm : (read s p1).2._minmax_timer.1 = p1.millis + s.reset_timeout := by
      rw [read_timer]
      dsimp only
      rw [if_pos hdue, Nat.mod_eq_of_lt hnowrap]
    have hnot : min_update_due (read s p1).2 (read (read s p1).2 p2).2.reading p2.millis
        = false := by
      have h1 : ¬ ((read (read s p1).2 p2).2.reading ≤ (read s p1).2.history.1) :=
        not_le.mpr hgt
      have h2 : ¬ ((read s p1).2._minmax_timer.1 < p2.millis) := by
        rw [htm]
        omega
      simp [min_update_due, h1, h2]
    rw [read_history (read s p1).2 p2, read_timer (read s p1).2 p2]
    dsimp only
    rw [hnot]
    exact ⟨rfl, rfl⟩
  · intro hdue hlt
    have htm : (read s p1).2._minmax_timer.2 = p1.millis + s.reset_timeout := by
      rw [read_timer]
      dsimp only
      rw [if_pos hdue, Nat.mod_eq_of_lt hnowrap]
    have hnot : max_update_due (read s p1).2 (read (read s p1).2 p2).2.reading p2.millis
        = false := by
      have h1 : ¬ ((read s p1).2.history.2 ≤ (read (read s p1).2 p2).2.reading) :=
        not_le.mpr hlt
      have h2 : ¬ ((read s p1).2._minmax_timer.2 < p2.millis) := by
        rw [htm]
        omega
      simp [max_update_due, h1, h2]
    rw [read_history (read s p1).2 p2, read_timer (read s p1).2 p2]
    dsimp only
    rw [hnot]
    exact ⟨rfl, rfl⟩

/-- A run of `set_emitter_pwm` calls keeps the pin and stores the last value passed. -/
theorem set_emitter_pwm_all_fields (vs : List Nat) :
    ∀ s : Vulintus_Photodetector,
      (set_emitter_pwm_all s vs)._pin_emitter = s._pin_emitter ∧
      (set_emitter_pwm_all s vs)._pwm_val = vs.getLastD s._pwm_val := by
  induction vs with
  | nil => intro s; exact ⟨rfl, rfl⟩
  | cons v vs ih =>
    intro s
    have h := ih (set_emitter_pwm s v).1
    rw [List.getLastD_cons]
    exact ⟨h.1, h.2⟩

/-- The last element of an appended list, with a default. -/
theorem getLastD_append_eq (l1 l2 : List Nat) :
    ∀ a : Nat, (l1 ++ l2).getLastD a = l2.getLastD (l1.getLastD a) := by
  induction l1 with
  | nil => intro a; rfl
  | cons x l1 ih =>
    intro a
    rw [List.cons_append, List.getLastD_cons, List.getLastD_cons]
    exact ih x

/-- For a beam index from 8 to 31 the registry update stores the old 8-bit value. -/
theorem bitmask_update_high (m i : Nat) (b : Bool) (h8 : 8 ≤ i) (h32 : i < 32)
    (hm : m < U8) : bitmask_update m i b = m := by
  have hU8 : U8 = 2 ^ 8 := by decide
  have hU32 : U32 = 2 ^ 32 := by decide
  have hpow : 2 ^ i < 2 ^ 32 := Nat.pow_lt_pow_right (by decide) h32
  have hcp : clear_pattern i = 2 ^ 32 - (2 ^ i + 1) := by
    unfold clear_pattern
    rw [hU32, Nat.one_shiftLeft, Nat.mod_eq_of_lt hpow]
    omega
  have hset : (b.toNat <<< i) % U32 = b.toNat <<< i := by
    rw [hU32]
    apply Nat.mod_eq_of_lt
    cases b
    · simp
    · simpa [Nat.one_shiftLeft] using hpow
  have hmj : ∀ j : Nat, 8 ≤ j → m.testBit j = false := by
    intro j hj
    apply Nat.testBit_lt_two_pow
    calc m < 2 ^ 8 := by rw [← hU8]; exact hm
      _ ≤ 2 ^ j := Nat.pow_le_pow_right (by decide) hj
  apply Nat.eq_of_testBit_eq
  intro j
  unfold bitmask_update
  rw [hset, hcp, hU8]
  simp only [Nat.testBit_mod_two_pow, Nat.testBit_lor, Nat.testBit_land,
    Nat.testBit_two_pow_sub_succ hpow, Nat.testBit_two_pow]
  by_cases hj : j < 8
  · have hij : ¬ i = j := by omega
    have hj32 : j < 32 := by omega
    cases b <;> simp [Nat.one_shiftLeft, Nat.testBit_two_pow, hij, hj, hj32]
  · have := hmj j (by omega)
    simp [hj, this]

/-! The claims, continued. -/

/-- C11: with `reset_timeout = 0`, after any run of earlier polls, a further poll
leaves `history.min` equal to the minimum of the previous `history.min` and the stored
reading, and `history.max` equal to the maximum of the previous `history.max` and the
stored reading; the clock value does not enter. -/
theorem C11_untimed_running_min_max (s : Vulintus_Photodetector) (earlier : List Poll)
    (p : Poll) (hzero : s.reset_timeout = 0) :
    (read (read_all s earlier) p).2.history.1 =
        min (read_all s earlier).history.1 (read (read_all s earlier) p).2.reading ∧
      (read (read_all s earlier) p).2.history.2 =
        max (read_all s earlier).history.2 (read (read_all s earlier) p).2.reading := by
  have hz : (read_all s earlier).reset_timeout = 0 := by
    rw [read_all_reset_timeout, hzero]
  rw [read_history]
  dsimp only
  constructor
  · by_cases h : (read (read_all s earlier) p).2.reading ≤ (read_all s earlier).history.1
    · simp [min_update_due, hz, h]
    · simp [min_update_due, hz, h, le_of_lt (not_le.mp h)]
  · by_cases h : (read_all s earlier).history.2 ≤ (read (read_all s earlier) p).2.reading
    · simp [max_update_due, hz, h]
    · simp [max_update_due, hz, h, le_of_lt (not_le.mp h)]

/-- C11 witness: the untimed example detector polled with 300, 100 and then 200 at
clock values far past its deadlines. -/
theorem C11_untimed_running_min_max_witness :
    (read (read_all untimed_detector [sample 300 5000, sample 100 90000])
        (sample 200 200000)).2.history.1 =
        min (read_all untimed_detector [sample 300 5000, sample 100 90000]).history.1
          (read (read_all untimed_detector [sample 300 5000, sample 100 90000])
            (sample 200 200000)).2.reading ∧
      (read (read_all untimed_detector [sample 300 5000, sample 100 90000])
        (sample 200 200000)).2.history.2 =
        max (read_all untimed_detector [sample 300 5000, sample 100 90000]).history.2
          (read (read_all untimed_detector [sample 300 5000, sample 100 90000])
            (sample 200 200000)).2.reading :=
  C11_untimed_running_min_max untimed_detector [sample 300 5000, sample 100 90000]
    (sample 200 200000) rfl

/-- C12, the code at the failing input: with `reset_timeout = 30000`, a poll at clock
4294967286 updates the min side and sets its deadline to
(4294967286 + 30000) mod 2^32 = 29990; the next poll, one millisecond later and with
a reading above `history.min`, already counts as timed out, so `history.min` and the
deadline both change. -/
theorem C12_reset_fires_early_at_wrap :
    0 < fresh_detector.reset_timeout ∧
    poll_before_wrap.millis < U32 ∧ poll_next_ms.millis < U32 ∧
    min_update_due fresh_detector (read fresh_detector poll_before_wrap).2.reading
      poll_before_wrap.millis = true ∧
    (read fresh_detector poll_before_wrap).2.history.1 = 100 ∧
    (read fresh_detector poll_before_wrap).2._minmax_timer.1 = 29990 ∧
    poll_before_wrap.millis ≤ poll_next_ms.millis ∧
    poll_next_ms.millis - poll_before_wrap.millis ≤ fresh_detector.reset_timeout ∧
    (read fresh_detector poll_before_wrap).2.history.1 <
      (read (read fresh_detector poll_before_wrap).2 poll_next_ms).2.reading ∧
    (read (read fresh_detector poll_before_wrap).2 poll_next_ms).2.history.1 = 200 ∧
    (read (read fresh_detector poll_before_wrap).2 poll_next_ms).2._minmax_timer.1 = 29991 := by
  decide

/-- C13: two detectors that differ only in `polarity`, polled with the same
environment answers, end with complementary `is_blocked` whenever the range after the
history update is at least `min_range` or auto-thresholding is off. -/
theorem C13_polarity_complement (s : Vulintus_Photodetector) (p : Poll)
    (hgate : s.min_range ≤ ir_range (read s p).2.history ∨ s.auto_thresh = false) :
    (read { s with polarity := !s.polarity } p).2.is_blocked = !(read s p).2.is_blocked := by
  have hopen : (decide (s.min_range ≤ ir_range (read s p).2.history) || !s.auto_thresh)
      = true := by
    rcases hgate with h | h
    · simp [h]
    · simp [h]
  have hh : (read { s with polarity := !s.polarity } p).2.history = (read s p).2.history := rfl
  have ht : (read { s with polarity := !s.polarity } p).2._cur_thresh
      = (read s p).2._cur_thresh := rfl
  have hr : (read { s with polarity := !s.polarity } p).2.reading = (read s p).2.reading := rfl
  rw [read_is_blocked, read_is_blocked s p, hh, ht, hr]
  dsimp only
  rw [hopen]
  cases s.polarity <;> simp

/-- C13 witness: threshold pinned at 150 on the example detector, poll with 140. -/
theorem C13_polarity_complement_witness :
    (read { set_thresh blocked_detector 150 with
        polarity := !(set_thresh blocked_detector 150).polarity } (sample 140 10)).2.is_blocked
      = !(read (set_thresh blocked_detector 150) (sample 140 10)).2.is_blocked :=
  C13_polarity_complement (set_thresh blocked_detector 150) (sample 140 10) (Or.inr rfl)

/-- C14 (as amended): while `_pin_emitter` is the sentinel 255, `get_emitter_pwm`
returns 0 after any list of `set_emitter_pwm` calls; after `set_emitter_pin p` with
`p` other than 255, it returns the value last passed to `set_emitter_pwm` (before or
after the pin was set), or the stored value if there was no such call. -/
theorem C14_emitter_pwm_getter (s : Vulintus_Photodetector) (before after : List Nat)
    (p : Nat) :
    (s._pin_emitter = 255 → get_emitter_pwm (set_emitter_pwm_all s before) = 0) ∧
    (p ≠ 255 →
      get_emitter_pwm
          (set_emitter_pwm_all (set_emitter_pin (set_emitter_pwm_all s before) p).1 after) =
        (before ++ after).getLastD s._pwm_val) := by
  constructor
  · intro hpin
    have h := (set_emitter_pwm_all_fields before s).1
    unfold get_emitter_pwm
    rw [h, hpin]
    simp
  · intro hp
    have h1 := set_emitter_pwm_all_fields after
      (set_emitter_pin (set_emitter_pwm_all s before) p).1
    have hpin : (set_emitter_pin (set_emitter_pwm_all s before) p).1._pin_emitter = p := rfl
    have hval : (set_emitter_pin (set_emitter_pwm_all s before) p).1._pwm_val =
        (set_emitter_pwm_all s before)._pwm_val := rfl
    have h2 := (set_emitter_pwm_all_fields before s).2
    unfold get_emitter_pwm
    rw [h1.1, hpin, if_pos hp, h1.2, hval, h2]
    exact (getLastD_append_eq before after s._pwm_val).symm

/-- C14 witness: no pin, `set_emitter_pwm 200`, then pin 6 and `set_emitter_pwm 90`. -/
theorem C14_emitter_pwm_getter_witness :
    get_emitter_pwm (set_emitter_pwm_all blocked_detector [200]) = 0 ∧
    get_emitter_pwm
        (set_emitter_pwm_all (set_emitter_pin (set_emitter_pwm_all blocked_detector [200]) 6).1
          [90]) = ([200] ++ [90]).getLastD blocked_detector._pwm_val :=
  ⟨(C14_emitter_pwm_getter blocked_detector [200] [90] 6).1 rfl,
   (C14_emitter_pwm_getter blocked_detector [200] [90] 6).2 (by decide)⟩

/-- C14 counterexample: after `set_emitter_pin 255` the getter returns 0, not the
stored value 255; and after `set_emitter_pwm 200` then `set_emitter_pin 255` it
returns 0, not 200. -/
theorem C14_counterexample :
    get_emitter_pwm (set_emitter_pin blocked_detector 255).1 = 0 ∧
    (set_emitter_pin blocked_detector 255).1._pwm_val = 255 ∧
    get_emitter_pwm (set_emitter_pin blocked_detector 255).1 ≠
      (set_emitter_pin blocked_detector 255).1._pwm_val ∧
    get_emitter_pwm (set_emitter_pin (set_emitter_pwm blocked_detector 200).1 255).1 ≠ 200 := by
  decide

/-- C16: in one poll `history.min` becomes the stored reading when
`reading <= history.min` or (`reset_timeout > 0` and the clock is past the min-side
deadline), and is kept otherwise; the min-side deadline becomes
`(clock + reset_timeout) mod 2^32` in the first case and is kept in the second. The
max side follows the same rule with `reading >= history.max` and its own deadline.
Both conditions are evaluated on the values before the poll. -/
theorem C16_history_update_rule (s : Vulintus_Photodetector) (p : Poll) :
    (read s p).2.history.1 =
      (if (read s p).2.reading ≤ s.history.1 ∨
          (0 < s.reset_timeout ∧ s._minmax_timer.1 < p.millis)
        then (read s p).2.reading else s.history.1) ∧
    (read s p).2._minmax_timer.1 =
      (if (read s p).2.reading ≤ s.history.1 ∨
          (0 < s.reset_timeout ∧ s._minmax_timer.1 < p.millis)
        then (p.millis + s.reset_timeout) % 2 ^ 32 else s._minmax_timer.1) ∧
    (read s p).2.history.2 =
      (if s.history.2 ≤ (read s p).2.reading ∨
          (0 < s.reset_timeout ∧ s._minmax_timer.2 < p.millis)
        then (read s p).2.reading else s.history.2) ∧
    (read s p).2._minmax_timer.2 =
      (if s.history.2 ≤ (read s p).2.reading ∨
          (0 < s.reset_timeout ∧ s._minmax_timer.2 < p.millis)
        then (p.millis + s.reset_timeout) % 2 ^ 32 else s._minmax_timer.2) := by
  have hmin : min_update_due s (read s p).2.reading p.millis = true ↔
      ((read s p).2.reading ≤ s.history.1 ∨
        (0 < s.reset_timeout ∧ s._minmax_timer.1 < p.millis)) := by
    simp [min_update_due]
  have hmax : max_update_due s (read s p).2.reading p.millis = true ↔
      (s.history.2 ≤ (read s p).2.reading ∨
        (0 < s.reset_timeout ∧ s._minmax_timer.2 < p.millis)) := by
    simp [max_update_due]
  have hU : U32 = 2 ^ 32 := by decide
  rw [read_history, read_timer, hU]
  dsimp only
  simp only [hmin, hmax]
  exact ⟨trivial, trivial, trivial, trivial⟩

/-- C17: `set_emitter_pwm v` stores `v`; with a pin other than 255 configured it makes
exactly one call on that pin, `digitalWrite HIGH` for 255, `digitalWrite LOW` for 0 and
`analogWrite v` for any other value; with no pin configured it makes no call.
`set_emitter_pin p` with `p` other than 255 configures the pin as output and then makes
the same single call for the stored value. -/
theorem C17_emitter_write_kind (s : Vulintus_Photodetector) (v p : Nat) :
    (set_emitter_pwm s v).1._pwm_val = v ∧
    (s._pin_emitter = 255 → (set_emitter_pwm s v).2 = []) ∧
    (s._pin_emitter ≠ 255 →
      (v = 255 → (set_emitter_pwm s v).2 = [PinCall.digitalWrite s._pin_emitter true]) ∧
      (v = 0 → (set_emitter_pwm s v).2 = [PinCall.digitalWrite s._pin_emitter false]) ∧
      (v ≠ 255 → v ≠ 0 → (set_emitter_pwm s v).2 = [PinCall.analogWrite s._pin_emitter v])) ∧
    (p ≠ 255 →
      (set_emitter_pin s p).2 =
        PinCall.pinMode p true :: (set_emitter_pwm { s with _pin_emitter := p } s._pwm_val).2 ∧
      (set_emitter_pin s p).1._pwm_val = s._pwm_val ∧
      (s._pwm_val = 255 → (set_emitter_pin s p).2 =
        [PinCall.pinMode p true, PinCall.digitalWrite p true]) ∧
      (s._pwm_val = 0 → (set_emitter_pin s p).2 =
        [PinCall.pinMode p true, PinCall.digitalWrite p false]) ∧
      (s._pwm_val ≠ 255 → s._pwm_val ≠ 0 → (set_emitter_pin s p).2 =
        [PinCall.pinMode p true, PinCall.analogWrite p s._pwm_val])) := by
  refine ⟨rfl, ?_, ?_, ?_⟩
  · intro h
    simp [set_emitter_pwm, h]
  · intro h
    refine ⟨?_, ?_, ?_⟩
    · intro hv
      simp [set_emitter_pwm, h, hv]
    · intro hv
      simp [set_emitter_pwm, h, hv]
    · intro h1 h2
      simp [set_emitter_pwm, h, h1, h2]
  · intro hp
    refine ⟨rfl, rfl, ?_, ?_, ?_⟩
    · intro hv
      simp [set_emitter_pin, set_emitter_pwm, hp, hv]
    · intro hv
      simp [set_emitter_pin, set_emitter_pwm, hp, hv]
    · intro h1 h2
      simp [set_emitter_pin, set_emitter_pwm, hp, h1, h2]

/-- C17 witness: pin 6 configured, values 255, 0 and 128; and `set_emitter_pin 7` with
200 stored. -/
theorem C17_emitter_write_kind_witness :
    (set_emitter_pwm emitter_detector 255).2 = [PinCall.digitalWrite 6 true] ∧
    (set_emitter_pwm emitter_detector 0).2 = [PinCall.digitalWrite 6 false] ∧
    (set_emitter_pwm emitter_detector 128).2 = [PinCall.analogWrite 6 128] ∧
    (set_emitter_pwm blocked_detector 128).2 = [] ∧
    (set_emitter_pin emitter_detector 7).2 =
      [PinCall.pinMode 7 true, PinCall.analogWrite 7 200] :=
  ⟨((C17_emitter_write_kind emitter_detector 255 7).2.2.1 (by decide)).1 rfl,
   ((C17_emitter_write_kind emitter_detector 0 7).2.2.1 (by decide)).2.1 rfl,
   ((C17_emitter_write_kind emitter_detector 128 7).2.2.1 (by decide)).2.2 (by decide)
     (by decide),
   (C17_emitter_write_kind blocked_detector 128 7).2.1 rfl,
   ((C17_emitter_write_kind emitter_detector 128 7).2.2.2 (by decide)).2.2.2.2 (by decide)
     (by decide)⟩

/-- C18: with auto-thresholding on and sensitivity between 0 and 1 inclusive, a poll
whose stored reading equals `history.max` after the history update and whose range is
at least `min_range` leaves `is_blocked` true for polarity true and false for polarity
false. -/
theorem C18_new_maximum_blocked (s : Vulintus_Photodetector) (p : Poll)
    (hauto : s.auto_thresh = true)
    (hpos : 0 ≤ s._sensitivity) (hle1 : s._sensitivity ≤ 1)
    (hmax : (read s p).2.reading = (read s p).2.history.2)
    (hrange : s.min_range ≤ ir_range (read s p).2.history) :
    (read s p).2.is_blocked = s.polarity := by
  have hb := read_bracket s p
  have hle : (read s p).2.history.1 ≤ (read s p).2.history.2 := le_trans hb.1 hb.2
  have h2 : (read s p).2.history.2 < U16 := by
    rw [← hmax]
    exact read_reading_lt s p
  have hr : ((ir_range (read s p).2.history : Nat) : ℚ) =
      ((read s p).2.history.2 : ℚ) - ((read s p).2.history.1 : ℚ) := by
    rw [ir_range_eq_sub _ hle h2, Nat.cast_sub hle]
  have hq : ((read s p).2.history.1 : ℚ) ≤ ((read s p).2.history.2 : ℚ) := by
    exact_mod_cast hle
  have hth : (read s p).2._cur_thresh ≤ (read s p).2.reading := by
    rw [hmax, read_thresh, if_pos hauto, hr]
    refine (float_to_u16_between _ (read s p).2.history.1 _ ?_ ?_ h2).2
    · nlinarith
    · nlinarith
  rw [read_is_blocked]
  simp only [hrange, hth, decide_True, Bool.true_or, if_true]
  cases s.polarity <;> rfl

/-- C18 witness: the second poll of the 100, 300 sequence sets a new maximum with
range 200. -/
theorem C18_new_maximum_blocked_witness :
    (read (read fresh_detector (sample 100 10)).2 (sample 300 20)).2.is_blocked =
      (read fresh_detector (sample 100 10)).2.polarity :=
  C18_new_maximum_blocked (read fresh_detector (sample 100 10)).2 (sample 300 20) rfl
    (by norm_num [read, fresh_detector, blocked_detector])
    (by norm_num [read, fresh_detector, blocked_detector]) (by decide) (by decide)

/-- C19: for a beam index from 8 to 30 and an 8-bit registry value, the shared
`bitmask` after a poll equals the `bitmask` before it, whatever `is_blocked` becomes. -/
theorem C19_high_index_leaves_registry (s : Vulintus_Photodetector) (p : Poll)
    (hlo : 8 ≤ s.index) (hhi : s.index ≤ 30) (hm : s.bitmask < U8) :
    (read s p).2.bitmask = s.bitmask := by
  rw [read_bitmask]
  exact bitmask_update_high _ _ _ hlo (by omega) hm

/-- C19 witness: the example detector with index 9 and registry value 5. -/
theorem C19_high_index_leaves_registry_witness :
    (read high_index_detector (sample 300 10)).2.bitmask = high_index_detector.bitmask :=
  C19_high_index_leaves_registry high_index_detector (sample 300 10) (by decide) (by decide)
    (by decide)

end Photodetector
